import Mathlib

/-!
Shallow embedding of the print-job lifecycle core of the `iot_printer`
repository, together with proofs that settle the specification claims
against it.

The embedding follows the JavaScript sources:
* `src/models/printSettings.js` (shipped inside `database.test.js`):
  `validateSettings`, `applyDefaults`, `normalizeSettings`, defaults;
* `src/utils/printerIntegration.js` (`unnamed/part_001`):
  `validatePrintSettings` and the module's export list;
* `src/models/database.js`: the `PrintJob` table operations
  (`insertPrintJob`, `getPrintJobs`, `getPrintJob`,
  `updatePrintJobStatus`, `completePrintJob`);
* `src/models/printJob.js` (shipped inside `jobHistory.test.js`):
  `createPrintJob`, `submitJobToQueue`, `updateJobStatus`;
* `src/controllers/jobController.js`: `postSubmitJob`, `updateJobStatus`;
* `src/utils/cleanupService.js`: `cleanupOldPrintJobs`.

JavaScript dynamic values that flow through settings records are modelled
by `JsVal`; absent object properties (`undefined`) are modelled by
`Option`.  Timestamps are modelled exactly as stored: SQLite
`CURRENT_TIMESTAMP` text on the one hand and `Date.prototype.toISOString`
text on the other, both rendered from an epoch-millisecond clock.
-/

namespace IotPrinter

/-- A JavaScript primitive value as it can appear in a settings field:
a string, an integer number, `NaN`, a boolean, or `null`. -/
inductive JsVal where
  | vStr (s : String)
  | vNum (n : Int)
  | vNaN
  | vBool (b : Bool)
  | vNull
  deriving DecidableEq, Repr

/-- JavaScript truthiness of a primitive value. -/
def truthy : JsVal → Bool
  | .vStr s => s ≠ ""
  | .vNum n => n ≠ 0
  | .vNaN => false
  | .vBool b => b
  | .vNull => false

/-- JavaScript `String(x)` on a primitive value. -/
def jsToString : JsVal → String
  | .vStr s => s
  | .vNum n => toString n
  | .vNaN => "NaN"
  | .vBool b => if b then "true" else "false"
  | .vNull => "null"

/-- Leading decimal digits of a character list. -/
def takeDigits : List Char → List Char
  | c :: cs => if c.isDigit then c :: takeDigits cs else []
  | [] => []

/-- Numeric value of a list of decimal digits. -/
def digitsToNat (l : List Char) : Nat :=
  l.foldl (fun a c => a * 10 + (c.toNat - 48)) 0

/-- JavaScript `parseInt(s, 10)` on a string: skip leading whitespace,
read an optional sign and then leading decimal digits; `none` stands for
`NaN` (no digits found). -/
def parseIntStr (s : String) : Option Int :=
  let cs := s.toList.dropWhile Char.isWhitespace
  match cs with
  | '-' :: rest =>
      let ds := takeDigits rest
      if ds = [] then none else some (-(digitsToNat ds : Int))
  | '+' :: rest =>
      let ds := takeDigits rest
      if ds = [] then none else some (digitsToNat ds : Int)
  | _ =>
      let ds := takeDigits cs
      if ds = [] then none else some (digitsToNat ds : Int)

/-- JavaScript `parseInt(v, 10)` on a primitive value: the value is first
converted to a string, then parsed; a failed parse yields `NaN`. -/
def jsParseInt (v : JsVal) : JsVal :=
  match parseIntStr (jsToString v) with
  | some n => .vNum n
  | none => .vNaN

/-- A raw settings record: the four declared fields of a print-settings
object, each possibly absent (`undefined`). -/
structure SettingsRec where
  paperType : Option JsVal
  printQuality : Option JsVal
  colorMode : Option JsVal
  paperSize : Option JsVal
  deriving DecidableEq, Repr

/-- JavaScript `settings.f || d`: a present truthy field, otherwise `d`. -/
def jsOr (v : Option JsVal) (d : JsVal) : JsVal :=
  match v with
  | some x => if truthy x then x else d
  | none => d

/-- An arbitrary value passed where a settings object is expected:
an object, a primitive (number, string, boolean, `null`), or `undefined`. -/
inductive JsInput where
  | obj (r : SettingsRec)
  | prim (v : JsVal)
  | undef
  deriving DecidableEq, Repr

/-- Truthiness of a settings-function argument: objects are always
truthy, primitives by their own truthiness, `undefined` is falsy. -/
def inputTruthy : JsInput → Bool
  | .obj _ => true
  | .prim v => truthy v
  | .undef => false

/-- Property access `x.field` on a settings-function argument: on a
non-object it yields `undefined` (primitives carry no such property). -/
def inputFields : JsInput → SettingsRec
  | .obj r => r
  | .prim _ => ⟨none, none, none, none⟩
  | .undef => ⟨none, none, none, none⟩

/-! ## SettingsResolver: the `printSettings` model -/

/-- The `DEFAULT_SETTINGS` record of `printSettings.js`. -/
def DEFAULT_SETTINGS : SettingsRec :=
  ⟨some (.vStr "Plain Paper"), some (.vNum 600),
   some (.vStr "Grayscale"), some (.vStr "A4")⟩

/-- The `AVAILABLE_OPTIONS.paperTypes` list. -/
def paperTypes : List String := ["Plain Paper", "Glossy"]

/-- The `AVAILABLE_OPTIONS.printQualities` list. -/
def printQualities : List Int := [600, 1200]

/-- The `AVAILABLE_OPTIONS.colorModes` list. -/
def colorModes : List String := ["Color", "Grayscale"]

/-- The `AVAILABLE_OPTIONS.paperSizes` list. -/
def paperSizes : List String := ["A4", "Letter", "Legal"]

/-- Membership test `list.includes(v)` for a list of string constants: strict equality,
so only a string value can be a member. -/
def includesStr (l : List String) (v : JsVal) : Bool :=
  match v with
  | .vStr s => l.contains s
  | _ => false

/-- Membership test `list.includes(v)` for a list of number constants. -/
def includesNum (l : List Int) (v : JsVal) : Bool :=
  match v with
  | .vNum n => l.contains n
  | _ => false

/-- Result record of `printSettings.validateSettings`. -/
structure ValidationResult where
  isValid : Bool
  errors : List String
  deriving DecidableEq, Repr

/-- Model of `printSettings.validateSettings(settings)`: a falsy argument is
rejected with a single error; otherwise each declared field, when
defined, is checked for membership in its option list. -/
def validateSettings (settings : JsInput) : ValidationResult :=
  if inputTruthy settings = false then
    ⟨false, ["Settings object is required"]⟩
  else
    let r := inputFields settings
    let e1 : List String :=
      match r.paperType with
      | some v =>
          if includesStr paperTypes v then []
          else ["Invalid paper type: " ++ jsToString v ++
                ". Must be one of: Plain Paper, Glossy"]
      | none => []
    let e2 : List String :=
      match r.printQuality with
      | some v =>
          if includesNum printQualities (jsParseInt v) then []
          else ["Invalid print quality: " ++ jsToString v ++
                ". Must be one of: 600, 1200"]
      | none => []
    let e3 : List String :=
      match r.colorMode with
      | some v =>
          if includesStr colorModes v then []
          else ["Invalid color mode: " ++ jsToString v ++
                ". Must be one of: Color, Grayscale"]
      | none => []
    let e4 : List String :=
      match r.paperSize with
      | some v =>
          if includesStr paperSizes v then []
          else ["Invalid paper size: " ++ jsToString v ++
                ". Must be one of: A4, Letter, Legal"]
      | none => []
    let errors := e1 ++ e2 ++ e3 ++ e4
    ⟨errors.isEmpty, errors⟩

/-- Model of `printSettings.applyDefaults(settings)`: fills each missing field
with its default; `printQuality` is parsed whenever defined, the string
fields pass through when truthy. -/
def applyDefaults (settings : SettingsRec) : SettingsRec :=
  { paperType := some (jsOr settings.paperType (.vStr "Plain Paper"))
    printQuality := some (match settings.printQuality with
      | some q => jsParseInt q
      | none => .vNum 600)
    colorMode := some (jsOr settings.colorMode (.vStr "Grayscale"))
    paperSize := some (jsOr settings.paperSize (.vStr "A4")) }

/-- Model of `printSettings.normalizeSettings(settings)`: every field is coerced
to its canonical type — the string fields through `String(...)`, the
quality through `parseInt(..., 10)` — with the defaults substituted for
missing or falsy fields. -/
def normalizeSettings (settings : SettingsRec) : SettingsRec :=
  { paperType := some (.vStr (jsToString (jsOr settings.paperType (.vStr "Plain Paper"))))
    printQuality := some (jsParseInt (jsOr settings.printQuality (.vNum 600)))
    colorMode := some (.vStr (jsToString (jsOr settings.colorMode (.vStr "Grayscale"))))
    paperSize := some (.vStr (jsToString (jsOr settings.paperSize (.vStr "A4")))) }

/-! ## DeviceGateway: the `printerIntegration` module -/

/-- Result record of `printerIntegration.validatePrintSettings`. -/
structure PrinterValidation where
  valid : Bool
  errors : List String
  deriving DecidableEq, Repr

/-- Model of `printerIntegration.validatePrintSettings(settings)`: a falsy or
non-object argument is rejected with a single error; otherwise each
declared field, when truthy, is checked against the printer's option
list (the quality after `parseInt`). -/
def validatePrintSettings (settings : JsInput) : PrinterValidation :=
  match settings with
  | .obj r =>
    let e1 : List String :=
      match r.paperType with
      | some v =>
          if truthy v ∧ ¬ includesStr paperTypes v then
            ["Invalid paper type: " ++ jsToString v]
          else []
      | none => []
    let e2 : List String :=
      match r.printQuality with
      | some v =>
          if truthy v ∧ ¬ includesNum printQualities (jsParseInt v) then
            ["Invalid print quality: " ++ jsToString v]
          else []
      | none => []
    let e3 : List String :=
      match r.colorMode with
      | some v =>
          if truthy v ∧ ¬ includesStr colorModes v then
            ["Invalid color mode: " ++ jsToString v]
          else []
      | none => []
    let e4 : List String :=
      match r.paperSize with
      | some v =>
          if truthy v ∧ ¬ includesStr paperSizes v then
            ["Invalid paper size: " ++ jsToString v]
          else []
      | none => []
    let errors := e1 ++ e2 ++ e3 ++ e4
    ⟨errors.isEmpty, errors⟩
  | _ => ⟨false, ["Settings must be an object"]⟩

/-- The names exported by `module.exports` of `printerIntegration.js`
(`unnamed/part_001`, lines 440-449).  Property access on the module
object for any other name yields `undefined`. -/
def printerIntegrationExports : List String :=
  ["formatPrinterOptions", "getPrinterStatus", "submitJobToPrinter",
   "getPrintQueueStatus", "cancelPrintJob", "validatePrintSettings",
   "getPrinterCapabilities", "PRINTER_CONFIG"]

/-- Result record of `printerIntegration.submitJobToPrinter`: the
device-submission outcome, supplied to the model as the behaviour of the
external print subsystem. -/
structure PrinterResult where
  success : Bool
  jobToken : Option String
  message : String
  deriving DecidableEq, Repr

/-! ## JobStore: the `database.js` PrintJob table -/

/-- Lexicographic codepoint comparison of character lists — on the
ASCII text handled here this is exactly the bytewise comparison SQLite's
BINARY collation performs. -/
def charListLt : List Char → List Char → Bool
  | _, [] => false
  | [], _ :: _ => true
  | a :: as, b :: bs =>
      if a.toNat < b.toNat then true
      else if b.toNat < a.toNat then false
      else charListLt as bs

/-- SQLite text comparison `a < b` under the BINARY collation. -/
def sqliteTextLt (a b : String) : Bool :=
  charListLt a.data b.data

/-- One row of the `PrintJob` table.  `submittedAt` and `completedAt`
hold the timestamp text SQLite stores (`CURRENT_TIMESTAMP` renders
`YYYY-MM-DD HH:MM:SS`). -/
structure JobRow where
  id : Nat
  userId : Nat
  documentName : String
  documentPath : String
  paperType : JsVal
  printQuality : JsVal
  colorMode : JsVal
  paperSize : JsVal
  status : String
  submittedAt : String
  completedAt : Option String
  deriving DecidableEq, Repr

/-- The `PrintJob` table plus its `AUTOINCREMENT` counter. -/
structure Store where
  jobs : List JobRow
  nextId : Nat
  deriving DecidableEq, Repr

/-- Argument record of `insertPrintJob` / `createPrintJob`; the four
settings fields and the status may be absent, in which case the
destructuring defaults apply. -/
structure JobData where
  userId : Nat
  documentName : String
  documentPath : String
  paperType : Option JsVal
  printQuality : Option JsVal
  colorMode : Option JsVal
  paperSize : Option JsVal
  deriving DecidableEq, Repr

/-- Model of `database.insertPrintJob(jobData)` executed at wall-clock text
`now`: appends a row with the destructuring defaults for missing fields
and returns the new store with `lastID`. -/
def insertPrintJob (st : Store) (now : String) (d : JobData) (status : Option String) :
    Store × Nat :=
  let row : JobRow :=
    { id := st.nextId
      userId := d.userId
      documentName := d.documentName
      documentPath := d.documentPath
      paperType := d.paperType.getD (.vStr "Plain Paper")
      printQuality := d.printQuality.getD (.vNum 600)
      colorMode := d.colorMode.getD (.vStr "Grayscale")
      paperSize := d.paperSize.getD (.vStr "A4")
      status := status.getD "pending"
      submittedAt := now
      completedAt := none }
  (⟨st.jobs ++ [row], st.nextId + 1⟩, st.nextId)

/-- Model of `database.getPrintJob(jobId)`: `SELECT * FROM PrintJob WHERE id = ?`
returning the first matching row or `null`. -/
def getPrintJob (st : Store) (jobId : Nat) : Option JobRow :=
  st.jobs.find? (fun j => j.id = jobId)

/-- Model of `database.getPrintJobs(userId)`: `SELECT * FROM PrintJob WHERE
userId = ? ORDER BY submittedAt DESC`. -/
def getPrintJobs (st : Store) (userId : Nat) : List JobRow :=
  (st.jobs.filter (fun j => j.userId = userId)).mergeSort
    (fun a b => ! sqliteTextLt a.submittedAt b.submittedAt)

/-- Model of `database.updatePrintJobStatus(jobId, status)`: `UPDATE PrintJob SET
status = ? WHERE id = ?`; returns the new store and the change count. -/
def updatePrintJobStatus (st : Store) (jobId : Nat) (status : String) : Store × Nat :=
  (⟨st.jobs.map (fun j => if j.id = jobId then { j with status := status } else j),
    st.nextId⟩,
   (st.jobs.filter (fun j => j.id = jobId)).length)

/-- Model of `database.completePrintJob(jobId)` at wall-clock text `now`:
`UPDATE PrintJob SET status = 'completed', completedAt =
CURRENT_TIMESTAMP WHERE id = ?`. -/
def completePrintJob (st : Store) (now : String) (jobId : Nat) : Store × Nat :=
  (⟨st.jobs.map (fun j =>
      if j.id = jobId then { j with status := "completed", completedAt := some now } else j),
    st.nextId⟩,
   (st.jobs.filter (fun j => j.id = jobId)).length)

/-! ## JobLifecycle: the `printJob` model -/

/-- Model of `printJob.createPrintJob(jobData)`: rejects a falsy `userId`,
`documentName` or `documentPath`, otherwise inserts a `pending` row and
returns its id. -/
def createPrintJob (st : Store) (now : String) (d : JobData) :
    Except String (Store × Nat) :=
  if d.userId = 0 ∨ d.documentName = "" ∨ d.documentPath = "" then
    .error "Missing required job data: userId, documentName, documentPath"
  else
    .ok (insertPrintJob st now d (some "pending"))

/-- The `validStatuses` list of `printJob.updateJobStatus`. -/
def validStatuses : List String := ["pending", "in-progress", "completed", "failed"]

/-- Model of `printJob.updateJobStatus(jobId, status)`: rejects a status outside
`validStatuses`, otherwise writes it unconditionally — the current
status of the row is never consulted. -/
def updateJobStatus (st : Store) (jobId : Nat) (status : String) :
    Except String (Store × Nat) :=
  if ¬ validStatuses.contains status then
    .error ("Invalid status: " ++ status ++
      ". Must be one of: pending, in-progress, completed, failed")
  else
    .ok (updatePrintJobStatus st jobId status)

/-- Model of `printJob.submitJobToQueue(jobId, documentPath, settings)`: looks
the job up, validates the settings through
`printerIntegration.validatePrintSettings`, then submits to the device
(whose outcome is the `printerResult` argument); on success the status
becomes `in-progress`, on failure the store is left untouched and the
failure result is returned.  Any raised error is rewrapped as a job
submission error. -/
def submitJobToQueue (st : Store) (jobId : Nat) (documentPath : String)
    (settings : JsInput) (printerResult : PrinterResult) :
    Except String (Store × PrinterResult) :=
  let inner : Except String (Store × PrinterResult) :=
    match getPrintJob st jobId with
    | none => .error ("Job " ++ toString jobId ++ " not found")
    | some _ =>
      let validation := validatePrintSettings settings
      if validation.valid = false then
        .error ("Invalid print settings: " ++ String.intercalate ", " validation.errors)
      else if printerResult.success then
        .ok ((updatePrintJobStatus st jobId "in-progress").1, printerResult)
      else
        .ok (st, printerResult)
  match inner with
  | .error m => .error ("Job submission error: " ++ m)
  | .ok r => .ok r

/-! ## The `jobController` request handlers -/

/-- The uploaded-file metadata held in the session. -/
structure UploadedFile where
  originalName : String
  path : String
  deriving DecidableEq, Repr

/-- The slice of the Express session that `postSubmitJob` and
`updateJobStatus` read and write. -/
structure Session where
  userId : Option Nat
  uploadedFile : Option UploadedFile
  printSettings : Option SettingsRec
  deriving DecidableEq, Repr

/-- The page rendered by `postSubmitJob`. -/
inductive PageResponse where
  | renderError (msg : String)
  | render500 (msg : String)
  | confirmation (jobId : Nat) (message : String)
  deriving DecidableEq, Repr

/-- Model of `jobController.postSubmitJob`: creates the job row, then submits it
to the device queue; the session is cleared only after a successful
submission call, and any raised error is rendered as a 500 page (the
store keeps whatever writes already happened). -/
def postSubmitJob (st : Store) (now : String) (sess : Session)
    (printerResult : PrinterResult) : Store × Session × PageResponse :=
  match sess.uploadedFile with
  | none => (st, sess, .renderError "No file uploaded. Please upload a document first.")
  | some f =>
    match sess.userId with
    | none => (st, sess, .renderError "User session invalid. Please log in again.")
    | some uid =>
      let settings := sess.printSettings.getD DEFAULT_SETTINGS
      match createPrintJob st now
          { userId := uid
            documentName := f.originalName
            documentPath := f.path
            paperType := settings.paperType
            printQuality := settings.printQuality
            colorMode := settings.colorMode
            paperSize := settings.paperSize } with
      | .error e => (st, sess, .render500 ("Job submission failed: " ++ e))
      | .ok (st1, jobId) =>
        match submitJobToQueue st1 jobId f.path (.obj settings) printerResult with
        | .error e => (st1, sess, .render500 ("Job submission failed: " ++ e))
        | .ok (st2, res) =>
          (st2, { sess with uploadedFile := none, printSettings := none },
           .confirmation jobId res.message)

/-- The JSON response of `jobController.updateJobStatus`. -/
inductive ApiResponse where
  | apiError (code : Nat) (error : String)
  | apiOk (jobId : Nat) (status : String) (updated : Bool)
  deriving DecidableEq, Repr

/-- The value `printerIntegration.isJobInQueue(job.id)` would resolve to
if the module exported it: queue membership plus a status word.  The
controller receives it as the behaviour of the external device queue. -/
structure QueueCheck where
  inQueue : Bool
  status : String
  deriving DecidableEq, Repr

/-- The `!jobId || isNaN(jobId)` guard followed by `parseInt(jobId, 10)`
on the `:jobId` route parameter, for the decimal ids the routes carry:
`none` when the guard rejects the parameter. -/
def parseRouteJobId (p : Option String) : Option Nat :=
  match p with
  | none => none
  | some s =>
      if s ≠ "" ∧ s.toList.all Char.isDigit then some (digitsToNat s.toList)
      else none

/-- Model of `jobController.updateJobStatus` (the reconcile handler): validates
the id, loads the job, checks ownership, then calls
`printerIntegration.isJobInQueue` — a property the module does not
export, so the call throws and the handler answers 500 unless the name
is in `printerIntegrationExports`; the status write happens only for an
`in-progress` job whose token has left the queue. -/
def updateJobStatusController (st : Store) (jobIdParam : Option String)
    (sessionUserId : Option Nat) (queueCheck : QueueCheck) : Store × ApiResponse :=
  match parseRouteJobId jobIdParam with
  | none => (st, .apiError 400 "Invalid job ID")
  | some jobId =>
    match getPrintJob st jobId with
    | none => (st, .apiError 404 "Job not found")
    | some job =>
      if some job.userId ≠ sessionUserId then
        (st, .apiError 403 "Access denied")
      else if "isJobInQueue" ∈ printerIntegrationExports then
        if queueCheck.inQueue = false ∧ job.status = "in-progress" then
          ((updatePrintJobStatus st job.id "completed").1,
           .apiOk job.id queueCheck.status (! queueCheck.inQueue))
        else
          (st, .apiOk job.id queueCheck.status (! queueCheck.inQueue))
      else
        (st, .apiError 500 "Failed to update job status")

/-! ## Timestamps

SQLite's `CURRENT_TIMESTAMP` stores UTC text `YYYY-MM-DD HH:MM:SS`;
`Date.prototype.toISOString` renders UTC text
`YYYY-MM-DDTHH:MM:SS.sssZ`.  Both are rendered here from an epoch clock
in milliseconds, and SQLite compares the two shapes bytewise. -/

/-- Civil date from a count of days since 1970-01-01 (proleptic
Gregorian, days-from-civil inverse). -/
def civilFromDays (z : Nat) : Nat × Nat × Nat :=
  let z := z + 719468
  let era := z / 146097
  let doe := z % 146097
  let yoe := (doe - doe / 1460 + doe / 36524 - doe / 146096) / 365
  let y := yoe + era * 400
  let doy := doe - (365 * yoe + yoe / 4 - yoe / 100)
  let mp := (5 * doy + 2) / 153
  let d := doy - (153 * mp + 2) / 5 + 1
  let m := if mp < 10 then mp + 3 else mp - 9
  (if m ≤ 2 then y + 1 else y, m, d)

/-- Two-digit zero-padded decimal. -/
def pad2 (n : Nat) : String :=
  if n < 10 then "0" ++ toString n else toString n

/-- Three-digit zero-padded decimal. -/
def pad3 (n : Nat) : String :=
  if n < 10 then "00" ++ toString n
  else if n < 100 then "0" ++ toString n
  else toString n

/-- The pieces of a UTC instant taken from epoch milliseconds. -/
def utcParts (ms : Nat) : Nat × Nat × Nat × Nat × Nat × Nat × Nat :=
  let days := ms / 86400000
  let rem := ms % 86400000
  let ymd := civilFromDays days
  (ymd.1, ymd.2.1, ymd.2.2,
   rem / 3600000, rem % 3600000 / 60000, rem % 60000 / 1000, rem % 1000)

/-- Rendering `new Date(ms).toISOString()`. -/
def toIsoString (ms : Nat) : String :=
  let p := utcParts ms
  toString p.1 ++ "-" ++ pad2 p.2.1 ++ "-" ++ pad2 p.2.2.1 ++ "T" ++
    pad2 p.2.2.2.1 ++ ":" ++ pad2 p.2.2.2.2.1 ++ ":" ++
    pad2 p.2.2.2.2.2.1 ++ "." ++ pad3 p.2.2.2.2.2.2 ++ "Z"

/-- SQLite `CURRENT_TIMESTAMP` text at epoch millisecond `ms`. -/
def sqliteTimestamp (ms : Nat) : String :=
  let p := utcParts ms
  toString p.1 ++ "-" ++ pad2 p.2.1 ++ "-" ++ pad2 p.2.2.1 ++ " " ++
    pad2 p.2.2.2.1 ++ ":" ++ pad2 p.2.2.2.2.1 ++ ":" ++
    pad2 p.2.2.2.2.2.1

/-! ## RetentionSweeper: `cleanupService.cleanupOldPrintJobs` -/

/-- The `ONE_DAY_MS` constant of `cleanupService.js`. -/
def ONE_DAY_MS : Nat := 24 * 60 * 60 * 1000

/-- Model of `cleanupService.cleanupOldPrintJobs` run at epoch millisecond
`nowMs`: `DELETE FROM PrintJob WHERE submittedAt < ?` with the cutoff
bound to `new Date(Date.now() - ONE_DAY_MS).toISOString()` — a bytewise
text comparison between the stored SQLite timestamp and the ISO-8601
cutoff.  Returns the store, the deletion count and the message. -/
def cleanupOldPrintJobs (st : Store) (nowMs : Nat) : Store × Nat × String :=
  let oneDayAgo := toIsoString (nowMs - ONE_DAY_MS)
  let kept := st.jobs.filter (fun j => ! sqliteTextLt j.submittedAt oneDayAgo)
  let deleted := st.jobs.length - kept.length
  (⟨kept, st.nextId⟩, deleted,
   "Cleaned up " ++ toString deleted ++ " old print job(s) from database")

/-! ## Claims about the SettingsResolver -/

/-- A settings record whose four fields are all present and drawn from
their enumerations, the quality in either accepted encoding (number or
numeral-string). -/
def ValidSettings (r : SettingsRec) : Prop :=
  (r.paperType = some (.vStr "Plain Paper") ∨ r.paperType = some (.vStr "Glossy")) ∧
  (r.printQuality = some (.vNum 600) ∨ r.printQuality = some (.vNum 1200) ∨
   r.printQuality = some (.vStr "600") ∨ r.printQuality = some (.vStr "1200")) ∧
  (r.colorMode = some (.vStr "Color") ∨ r.colorMode = some (.vStr "Grayscale")) ∧
  (r.paperSize = some (.vStr "A4") ∨ r.paperSize = some (.vStr "Letter") ∨
   r.paperSize = some (.vStr "Legal"))

/-- C7: for every valid settings record (each field drawn from its
enumeration, quality possibly a numeral-string), `normalizeSettings` is
idempotent. -/
theorem normalizeSettings_idempotent (r : SettingsRec) (h : ValidSettings r) :
    normalizeSettings (normalizeSettings r) = normalizeSettings r := by
  obtain ⟨pt, q, cm, ps⟩ := r
  obtain ⟨h1, h2, h3, h4⟩ := h
  rcases h1 with h1 | h1 <;> rcases h2 with h2 | h2 | h2 | h2 <;>
    rcases h3 with h3 | h3 <;> rcases h4 with h4 | h4 | h4 <;>
    simp only at h1 h2 h3 h4 <;> subst h1 h2 h3 h4 <;> decide

/-- Witness for C7 at a concrete valid record with a numeral-string
quality. -/
theorem normalizeSettings_idempotent_witness :
    ValidSettings ⟨some (.vStr "Glossy"), some (.vStr "1200"),
                   some (.vStr "Color"), some (.vStr "Legal")⟩ ∧
    normalizeSettings (normalizeSettings
        ⟨some (.vStr "Glossy"), some (.vStr "1200"),
         some (.vStr "Color"), some (.vStr "Legal")⟩) =
      normalizeSettings
        ⟨some (.vStr "Glossy"), some (.vStr "1200"),
         some (.vStr "Color"), some (.vStr "Legal")⟩ := by
  constructor
  · exact ⟨Or.inr rfl, Or.inr (Or.inr (Or.inr rfl)), Or.inl rfl, Or.inr (Or.inr rfl)⟩
  · exact normalizeSettings_idempotent _
      ⟨Or.inr rfl, Or.inr (Or.inr (Or.inr rfl)), Or.inl rfl, Or.inr (Or.inr rfl)⟩

/-- C8 counterexample: a present field with a falsy value (empty-string
paper type) is not preserved by `applyDefaults` — the default is
substituted, so the claim fails on the record `\x7bpaperType: ""\x7d`. -/
theorem applyDefaults_not_preserving :
    (⟨some (.vStr ""), none, none, none⟩ : SettingsRec).paperType = some (.vStr "") ∧
    (applyDefaults ⟨some (.vStr ""), none, none, none⟩).paperType =
      some (.vStr "Plain Paper") ∧
    (applyDefaults ⟨some (.vStr ""), none, none, none⟩).paperType ≠
      (⟨some (.vStr ""), none, none, none⟩ : SettingsRec).paperType := by
  decide

/-- C8 as amended: `applyDefaults` leaves no field undefined; every
present field with a truthy value is preserved, and a present
`printQuality` is always carried over as `parseInt` of its value — but a
present falsy string field is replaced by its default. -/
theorem applyDefaults_amended (r : SettingsRec) :
    ((applyDefaults r).paperType.isSome ∧ (applyDefaults r).printQuality.isSome ∧
     (applyDefaults r).colorMode.isSome ∧ (applyDefaults r).paperSize.isSome) ∧
    (∀ v, r.paperType = some v → truthy v = true →
      (applyDefaults r).paperType = some v) ∧
    (∀ v, r.printQuality = some v →
      (applyDefaults r).printQuality = some (jsParseInt v)) ∧
    (∀ v, r.colorMode = some v → truthy v = true →
      (applyDefaults r).colorMode = some v) ∧
    (∀ v, r.paperSize = some v → truthy v = true →
      (applyDefaults r).paperSize = some v) := by
  obtain ⟨pt, q, cm, ps⟩ := r
  refine ⟨⟨rfl, ?_, rfl, rfl⟩, ?_, ?_, ?_, ?_⟩
  · cases q <;> rfl
  · intro v hv ht
    simp only at hv
    subst hv
    simp [applyDefaults, jsOr, ht]
  · intro v hv
    simp only at hv
    subst hv
    simp [applyDefaults]
  · intro v hv ht
    simp only at hv
    subst hv
    simp [applyDefaults, jsOr, ht]
  · intro v hv ht
    simp only at hv
    subst hv
    simp [applyDefaults, jsOr, ht]

/-- Witness for C8 as amended at a concrete partial record. -/
theorem applyDefaults_amended_witness :
    (applyDefaults ⟨some (.vStr "Glossy"), some (.vStr "1200"), none, none⟩).paperType =
      some (.vStr "Glossy") ∧
    (applyDefaults ⟨some (.vStr "Glossy"), some (.vStr "1200"), none, none⟩).printQuality =
      some (.vNum 1200) := by
  refine ⟨(applyDefaults_amended _).2.1 _ rfl (by decide), ?_⟩
  have h := (applyDefaults_amended
      ⟨some (.vStr "Glossy"), some (.vStr "1200"), none, none⟩).2.2.1 _ rfl
  simpa using h

/-- C9 counterexample: the truthy non-object input `5` is accepted by
`validateSettings` as valid with no errors, so the claim that every
non-object input is invalid with exactly one error fails at `5`. -/
theorem validateSettings_truthy_prim_valid :
    validateSettings (.prim (.vNum 5)) = ⟨true, []⟩ ∧
    ¬ ((validateSettings (.prim (.vNum 5))).isValid = false ∧
       (validateSettings (.prim (.vNum 5))).errors.length = 1) := by
  decide

/-- C9 as amended: every falsy input (`null`, `undefined`, `false`, `0`,
the empty string, `NaN`) is invalid with exactly the single error, while
a truthy non-object input carries no declared fields and is accepted as
valid. -/
theorem validateSettings_amended :
    (∀ v : JsInput, inputTruthy v = false →
      validateSettings v = ⟨false, ["Settings object is required"]⟩) ∧
    (∀ p : JsVal, truthy p = true → validateSettings (.prim p) = ⟨true, []⟩) := by
  constructor
  · intro v h
    simp [validateSettings, h]
  · intro p h
    simp [validateSettings, inputTruthy, h, inputFields]

/-- Witness for C9 as amended at `null` and at `5`. -/
theorem validateSettings_amended_witness :
    validateSettings (.prim .vNull) = ⟨false, ["Settings object is required"]⟩ ∧
    validateSettings (.prim (.vNum 5)) = ⟨true, []⟩ :=
  ⟨validateSettings_amended.1 _ (by decide),
   validateSettings_amended.2 _ (by decide)⟩

/-! ## Claims about reconciliation and status transitions -/

/-- C4: for every existing job owned by the caller, the reconcile
handler always answers with the 500 error and leaves the store
untouched: `printerIntegration` does not export `isJobInQueue`, so the
call raises before any update and the exception is caught and reported. -/
theorem reconcile_always_errors (st : Store) (p : Option String)
    (uid : Option Nat) (qc : QueueCheck) (jid : Nat) (job : JobRow)
    (hp : parseRouteJobId p = some jid)
    (hj : getPrintJob st jid = some job)
    (hown : some job.userId = uid) :
    updateJobStatusController st p uid qc =
      (st, .apiError 500 "Failed to update job status") := by
  have hmem : ("isJobInQueue" ∈ printerIntegrationExports) = False := by
    simp [printerIntegrationExports]
  simp [updateJobStatusController, hp, hj, ← hown, hmem]

/-- A job row in progress, used to exercise the reconcile handler. -/
def reconJob : JobRow :=
  ⟨1, 7, "a.pdf", "/tmp/a.pdf", .vStr "Plain Paper", .vNum 600,
   .vStr "Grayscale", .vStr "A4", "in-progress", "2026-10-10 12:00:00", none⟩

/-- A one-row store holding `reconJob`. -/
def reconStore : Store := ⟨[reconJob], 2⟩

/-- Witness for C4: the owner of the in-progress job asks for
reconciliation while the device queue no longer lists the job, and still
receives the 500 error with the store unchanged. -/
theorem reconcile_always_errors_witness :
    updateJobStatusController reconStore (some "1") (some 7) ⟨false, "completed"⟩ =
      (reconStore, .apiError 500 "Failed to update job status") :=
  reconcile_always_errors reconStore _ _ _ 1 reconJob (by decide) (by decide) (by decide)

/-- An in-progress job with no completion timestamp, owned by user 1. -/
def c2Job : JobRow :=
  ⟨1, 1, "doc.pdf", "/tmp/doc.pdf", .vStr "Plain Paper", .vNum 600,
   .vStr "Grayscale", .vStr "A4", "in-progress", "2026-10-10 12:00:00", none⟩

/-- A one-row store holding `c2Job`. -/
def c2Store : Store := ⟨[c2Job], 2⟩

/-- C2 evaluated at the failing input: the owner reconciles the
in-progress job whose token has left the device queue, yet the handler
answers 500 and the job keeps status `in-progress` with a null
completion timestamp; moreover even the write the handler's visible code
would issue, `updatePrintJobStatus(id, "completed")`, reaches the
terminal status without ever setting `completedAt` — only the never-called
`completePrintJob` stamps it. -/
theorem reconcile_never_completes :
    updateJobStatusController c2Store (some "1") (some 1) ⟨false, "completed"⟩ =
      (c2Store, .apiError 500 "Failed to update job status") ∧
    c2Store.jobs.map (fun j => (j.status, j.completedAt)) = [("in-progress", none)] ∧
    ((updatePrintJobStatus c2Store 1 "completed").1).jobs.map
        (fun j => (j.status, j.completedAt)) = [("completed", none)] ∧
    ((completePrintJob c2Store "2026-10-10 12:30:00" 1).1).jobs.map
        (fun j => (j.status, j.completedAt)) =
      [("completed", some "2026-10-10 12:30:00")] := by
  decide

/-- A completed job with its completion timestamp set. -/
def c3Job : JobRow :=
  ⟨1, 1, "doc.pdf", "/tmp/doc.pdf", .vStr "Plain Paper", .vNum 600,
   .vStr "Grayscale", .vStr "A4", "completed", "2026-10-10 12:00:00",
   some "2026-10-10 12:05:00"⟩

/-- A one-row store holding `c3Job`. -/
def c3Store : Store := ⟨[c3Job], 2⟩

/-- C3 counterexample: the exposed `printJob.updateJobStatus` moves the
completed job `c3Job` back to `pending` — a transition out of a terminal
state that also breaks the pending → in-progress → terminal order. -/
theorem updateJobStatus_leaves_terminal :
    updateJobStatus c3Store 1 "pending" =
      .ok (⟨[⟨1, 1, "doc.pdf", "/tmp/doc.pdf", .vStr "Plain Paper", .vNum 600,
              .vStr "Grayscale", .vStr "A4", "pending", "2026-10-10 12:00:00",
              some "2026-10-10 12:05:00"⟩], 2⟩, 1) ∧
    c3Job.status = "completed" :=
  ⟨rfl, rfl⟩

/-- C3 as amended: the reconcile handler never changes the store at all
(so in particular never moves a job out of a terminal state), while the
model-level `updateJobStatus` checks only that the new status is one of
the four valid words and writes it regardless of the current status. -/
theorem jobStatus_transitions_amended :
    (∀ (st : Store) (p : Option String) (uid : Option Nat) (qc : QueueCheck),
      (updateJobStatusController st p uid qc).1 = st) ∧
    (∀ (st : Store) (jobId : Nat) (status : String),
      validStatuses.contains status = true →
      updateJobStatus st jobId status = .ok (updatePrintJobStatus st jobId status)) := by
  constructor
  · intro st p uid qc
    have hmem : ("isJobInQueue" ∈ printerIntegrationExports) = False := by
      simp [printerIntegrationExports]
    rcases hp : parseRouteJobId p with _ | jid
    · simp [updateJobStatusController, hp]
    · rcases hj : getPrintJob st jid with _ | job
      · simp [updateJobStatusController, hp, hj]
      · by_cases hown : some job.userId ≠ uid <;>
          simp [updateJobStatusController, hp, hj, hown, hmem]
  · intro st jobId status h
    unfold updateJobStatus
    simp only [h]
    simp

/-- Witness for C3 as amended: the reconcile handler of the witness
store, and a valid status write on an empty store. -/
theorem jobStatus_transitions_amended_witness :
    (updateJobStatusController ⟨[], 1⟩ (some "1") (some 1) ⟨false, "done"⟩).1 =
      (⟨[], 1⟩ : Store) ∧
    updateJobStatus ⟨[], 1⟩ 1 "failed" = .ok (updatePrintJobStatus ⟨[], 1⟩ 1 "failed") :=
  ⟨jobStatus_transitions_amended.1 _ _ _ _,
   jobStatus_transitions_amended.2 _ _ _ (by decide)⟩

/-! ## Claims about job submission -/

/-- Mapping a status rewrite over the table rewrites exactly the row
that `find?` locates. -/
theorem find?_map_update (l : List JobRow) (jobId : Nat) (s : String) (job : JobRow)
    (hj : l.find? (fun j => j.id = jobId) = some job) :
    (l.map (fun j => if j.id = jobId then { j with status := s } else j)).find?
        (fun j => j.id = jobId) = some { job with status := s } := by
  induction l with
  | nil => simp at hj
  | cons h t ih =>
    by_cases hid : h.id = jobId
    · rw [List.find?_cons_of_pos _ (by simp [hid])] at hj
      obtain rfl : h = job := by injection hj
      simp only [List.map_cons, if_pos hid]
      rw [List.find?_cons_of_pos _ (by simp [hid])]
    · rw [List.find?_cons_of_neg _ (by simp [hid])] at hj
      simp only [List.map_cons, if_neg hid]
      rw [List.find?_cons_of_neg _ (by simp [hid])]
      exact ih hj

/-- Updating a job's status rewrites exactly the row that
`getPrintJob` finds. -/
theorem getPrintJob_updatePrintJobStatus (st : Store) (jobId : Nat) (s : String)
    (job : JobRow) (hj : getPrintJob st jobId = some job) :
    getPrintJob (updatePrintJobStatus st jobId s).1 jobId =
      some { job with status := s } :=
  find?_map_update st.jobs jobId s job hj

/-- C6: for a created job (status `pending`, valid settings), a failed
device submission leaves the store — and so the job's `pending` status —
untouched and returns the device's failure result to the caller, while a
successful submission moves exactly that job to `in-progress`. -/
theorem submitJobToQueue_spec (st : Store) (jobId : Nat) (docPath : String)
    (settings : JsInput) (pr : PrinterResult) (job : JobRow)
    (hj : getPrintJob st jobId = some job)
    (hpend : job.status = "pending")
    (hv : (validatePrintSettings settings).valid = true) :
    (pr.success = false →
      submitJobToQueue st jobId docPath settings pr = .ok (st, pr) ∧
      getPrintJob st jobId = some job ∧ job.status = "pending") ∧
    (pr.success = true →
      submitJobToQueue st jobId docPath settings pr =
        .ok ((updatePrintJobStatus st jobId "in-progress").1, pr) ∧
      getPrintJob (updatePrintJobStatus st jobId "in-progress").1 jobId =
        some { job with status := "in-progress" }) := by
  constructor
  · intro hs
    refine ⟨?_, hj, hpend⟩
    unfold submitJobToQueue
    simp [hj, hv, hs]
  · intro hs
    refine ⟨?_, getPrintJob_updatePrintJobStatus st jobId _ job hj⟩
    unfold submitJobToQueue
    simp [hj, hv, hs]

/-- A freshly created pending job for the C6 witness. -/
def c6Job : JobRow :=
  ⟨1, 1, "a.pdf", "/tmp/a.pdf", .vStr "Plain Paper", .vNum 600,
   .vStr "Grayscale", .vStr "A4", "pending", "2026-10-10 12:00:00", none⟩

/-- A one-row store holding `c6Job`. -/
def c6Store : Store := ⟨[c6Job], 2⟩

/-- Witness for C6: a failed device submission on the concrete pending
job returns the failure result and leaves the store unchanged. -/
theorem submitJobToQueue_spec_witness :
    submitJobToQueue c6Store 1 "/tmp/a.pdf" (.obj DEFAULT_SETTINGS)
        ⟨false, none, "Failed to submit job to printer: CUPS unavailable"⟩ =
      .ok (c6Store, ⟨false, none, "Failed to submit job to printer: CUPS unavailable"⟩) ∧
    getPrintJob c6Store 1 = some c6Job ∧ c6Job.status = "pending" :=
  (submitJobToQueue_spec c6Store 1 "/tmp/a.pdf" (.obj DEFAULT_SETTINGS)
      ⟨false, none, "Failed to submit job to printer: CUPS unavailable"⟩ c6Job
      (by decide) (by decide) (by decide)).1 rfl

/-! ## Claims about job creation with invalid settings -/

/-- Session settings carrying the out-of-enumeration paper type `Foo`. -/
def c1Settings : SettingsRec :=
  ⟨some (.vStr "Foo"), some (.vNum 600), some (.vStr "Grayscale"), some (.vStr "A4")⟩

/-- A logged-in session with an uploaded file and the `Foo` settings. -/
def c1Session : Session :=
  ⟨some 1, some ⟨"a.pdf", "/tmp/a.pdf"⟩, some c1Settings⟩

/-- C1 counterexample: submitting with the invalid settings
`\x7bpaperType: "Foo"\x7d` does raise the validation error, but the Job
row created beforehand stays persisted, so the store after the failed
call differs from the store before it. -/
theorem postSubmitJob_persists_on_invalid :
    (postSubmitJob ⟨[], 1⟩ "2026-10-10 12:00:00" c1Session
        ⟨true, some "42", "ok"⟩).2.2 =
      .render500 ("Job submission failed: Job submission error: " ++
        "Invalid print settings: Invalid paper type: Foo") ∧
    (postSubmitJob ⟨[], 1⟩ "2026-10-10 12:00:00" c1Session
        ⟨true, some "42", "ok"⟩).1.jobs.length = 1 ∧
    (postSubmitJob ⟨[], 1⟩ "2026-10-10 12:00:00" c1Session
        ⟨true, some "42", "ok"⟩).1 ≠ (⟨[], 1⟩ : Store) := by
  decide

/-- Submission of a job whose settings fail the printer-side validation
always raises: either the not-found error or the invalid-settings error,
in both cases before any store write. -/
theorem submitJobToQueue_invalid_error (st : Store) (jobId : Nat) (docPath : String)
    (settings : JsInput) (pr : PrinterResult)
    (hv : (validatePrintSettings settings).valid = false) :
    submitJobToQueue st jobId docPath settings pr =
      .error (match getPrintJob st jobId with
        | none => "Job submission error: " ++ ("Job " ++ toString jobId ++ " not found")
        | some _ => "Job submission error: " ++ ("Invalid print settings: " ++
            String.intercalate ", " (validatePrintSettings settings).errors)) := by
  unfold submitJobToQueue
  rcases hg : getPrintJob st jobId with _ | j
  · simp [hg]
  · simp [hg, hv]

/-- C1 as amended: when the session settings fail the printer-side
validation, the submission handler reports the failure as an error, but
the job store after the failed call is the store before it plus exactly
the one new `pending` row inserted before validation ran. -/
theorem postSubmitJob_invalid_settings_amended (st : Store) (now : String)
    (sess : Session) (pr : PrinterResult) (f : UploadedFile) (uid : Nat)
    (hf : sess.uploadedFile = some f) (hu : sess.userId = some uid)
    (huid : uid ≠ 0) (hn : f.originalName ≠ "") (hp : f.path ≠ "")
    (hv : (validatePrintSettings
      (.obj (sess.printSettings.getD DEFAULT_SETTINGS))).valid = false) :
    ∃ m row, postSubmitJob st now sess pr =
      (⟨st.jobs ++ [row], st.nextId + 1⟩, sess, .render500 m) ∧
      row.status = "pending" ∧ row.userId = uid ∧ row.id = st.nextId := by
  simp only [postSubmitJob, hf, hu, createPrintJob]
  rw [if_neg (by simp [huid, hn, hp])]
  simp only [insertPrintJob]
  rw [submitJobToQueue_invalid_error _ _ _ _ _ hv]
  exact ⟨_, _, rfl, rfl, rfl, rfl⟩

/-- Witness for C1 as amended: the concrete `Foo` session on an empty
store. -/
theorem postSubmitJob_invalid_settings_amended_witness :
    ∃ m row, postSubmitJob ⟨[], 5⟩ "2026-10-11 10:00:00" c1Session ⟨true, some "42", "ok"⟩ =
      (⟨[] ++ [row], 5 + 1⟩, c1Session, .render500 m) ∧
      row.status = "pending" ∧ row.userId = 1 ∧ row.id = 5 :=
  postSubmitJob_invalid_settings_amended ⟨[], 5⟩ "2026-10-11 10:00:00" c1Session
    ⟨true, some "42", "ok"⟩ ⟨"a.pdf", "/tmp/a.pdf"⟩ 1
    rfl rfl (by decide) (by decide) (by decide) (by decide)

/-! ## Claims about per-user job listing -/

/-- Asymmetry of the bytewise list comparison. -/
theorem charListLt_asymm :
    ∀ a b, charListLt a b = true → charListLt b a = false := by
  intro a
  induction a with
  | nil => intro b _; cases b <;> rfl
  | cons x xs ih =>
    intro b h
    cases b with
    | nil => simp [charListLt] at h
    | cons y ys =>
      simp only [charListLt] at h ⊢
      by_cases hxy : x.toNat < y.toNat
      · have : ¬ y.toNat < x.toNat := by omega
        simp [hxy, this]
      · by_cases hyx : y.toNat < x.toNat
        · simp [hxy, hyx] at h
        · simp only [hxy, hyx, if_false] at h ⊢
          exact ih ys h

/-- Negative transitivity of the bytewise list comparison: the induced
`≥` relation is transitive. -/
theorem charListLt_trans_neg :
    ∀ a b c, charListLt a b = false → charListLt b c = false →
      charListLt a c = false := by
  intro a
  induction a with
  | nil =>
    intro b c h1 h2
    cases b with
    | nil => exact h2
    | cons y ys => simp [charListLt] at h1
  | cons x xs ih =>
    intro b c h1 h2
    cases c with
    | nil => rfl
    | cons z zs =>
      cases b with
      | nil => simp [charListLt] at h2
      | cons y ys =>
        simp only [charListLt] at h1 h2 ⊢
        by_cases hxy : x.toNat < y.toNat
        · simp [hxy] at h1
        · by_cases hyz : y.toNat < z.toNat
          · simp [hyz] at h2
          · have hxz : ¬ x.toNat < z.toNat := by omega
            by_cases hzx : z.toNat < x.toNat
            · simp [hxz, hzx]
            · have hyx : ¬ y.toNat < x.toNat := by omega
              have hzy : ¬ z.toNat < y.toNat := by omega
              simp only [hxy, hyx, if_false] at h1
              simp only [hyz, hzy, if_false] at h2
              simp only [hxz, hzx, if_false]
              exact ih ys zs h1 h2

/-- C10: `getPrintJobs` returns exactly the caller's rows — a row is in
the result precisely when it is a stored job of user `A` — ordered by
descending stored submission timestamp (no later row compares below a
preceding one under the BINARY collation), and never a row of a
distinct user `B`. -/
theorem getPrintJobs_spec (st : Store) (A : Nat) :
    (∀ j, j ∈ getPrintJobs st A ↔ j ∈ st.jobs ∧ j.userId = A) ∧
    List.Pairwise (fun a b => sqliteTextLt a.submittedAt b.submittedAt = false)
      (getPrintJobs st A) ∧
    (∀ B, B ≠ A → ∀ j ∈ getPrintJobs st A, j.userId ≠ B) := by
  have hmem : ∀ j, j ∈ getPrintJobs st A ↔ j ∈ st.jobs ∧ j.userId = A := by
    intro j
    unfold getPrintJobs
    rw [List.mem_mergeSort]
    simp [List.mem_filter]
  refine ⟨hmem, ?_, ?_⟩
  · unfold getPrintJobs
    have h := @List.sorted_mergeSort JobRow
      (fun a b => ! sqliteTextLt a.submittedAt b.submittedAt)
      (fun a b c hab hbc => by
        simp only [Bool.not_eq_true'] at hab hbc ⊢
        exact charListLt_trans_neg _ _ _ hab hbc)
      (fun a b => by
        rcases hab : charListLt a.submittedAt.data b.submittedAt.data with _ | _
        · simp [sqliteTextLt, hab]
        · simp [sqliteTextLt, hab, charListLt_asymm _ _ hab])
      (st.jobs.filter (fun j => j.userId = A))
    exact h.imp (fun hab => by simpa [sqliteTextLt] using hab)
  · intro B hB j hj hBj
    obtain ⟨_, hA⟩ := (hmem j).1 hj
    exact hB (hBj ▸ hA)

/-- A job of user 1 submitted at noon. -/
def listJobA1 : JobRow :=
  ⟨1, 1, "a1.pdf", "/tmp/a1.pdf", .vStr "Plain Paper", .vNum 600,
   .vStr "Grayscale", .vStr "A4", "pending", "2026-10-10 12:00:00", none⟩

/-- A job of user 2. -/
def listJobB : JobRow :=
  ⟨2, 2, "b.pdf", "/tmp/b.pdf", .vStr "Plain Paper", .vNum 600,
   .vStr "Grayscale", .vStr "A4", "pending", "2026-10-10 12:30:00", none⟩

/-- A later job of user 1. -/
def listJobA2 : JobRow :=
  ⟨3, 1, "a2.pdf", "/tmp/a2.pdf", .vStr "Glossy", .vNum 1200,
   .vStr "Color", .vStr "Legal", "pending", "2026-10-10 13:00:00", none⟩

/-- A three-row store with jobs of users 1 and 2. -/
def listStore : Store := ⟨[listJobA1, listJobB, listJobA2], 4⟩

/-- Witness for C10: user 2's job is absent from user 1's listing, and
the concrete listing is sorted newest-first. -/
theorem getPrintJobs_spec_witness :
    listJobB ∉ getPrintJobs listStore 1 ∧
    List.Pairwise (fun a b => sqliteTextLt a.submittedAt b.submittedAt = false)
      (getPrintJobs listStore 1) := by
  constructor
  · intro h
    have h2 := ((getPrintJobs_spec listStore 1).1 listJobB).mp h
    exact absurd h2.2 (by decide)
  · exact (getPrintJobs_spec listStore 1).2.1

/-! ## The retention sweep claim -/

/-- A job submitted one minute before the sweep instant
2026-10-11T00:00:30Z, i.e. at 2026-10-10 23:59:30 UTC. -/
def freshJob : JobRow :=
  ⟨1, 1, "fresh.pdf", "/tmp/fresh.pdf", .vStr "Plain Paper", .vNum 600,
   .vStr "Grayscale", .vStr "A4", "pending",
   sqliteTimestamp (1791676830000 - 60000), none⟩

/-- A one-row store holding `freshJob`. -/
def freshStore : Store := ⟨[freshJob], 2⟩

/-- C5 evaluated at the failing input: at a sweep run 30 seconds past
UTC midnight, the job submitted one minute earlier — stored by SQLite as
`2026-10-10 23:59:30` — compares below the ISO cutoff
`2026-10-10T00:00:30.000Z` (a space sorts before the letter T), so the
sweep deletes a job that is only 60 seconds old, although the cutoff
instant is a full day before the sweep. -/
theorem cleanup_deletes_one_minute_old_job :
    sqliteTimestamp (1791676830000 - 60000) = "2026-10-10 23:59:30" ∧
    toIsoString 1791676830000 = "2026-10-11T00:00:30.000Z" ∧
    toIsoString (1791676830000 - ONE_DAY_MS) = "2026-10-10T00:00:30.000Z" ∧
    1791676830000 - (1791676830000 - 60000) = 60000 ∧
    cleanupOldPrintJobs freshStore 1791676830000 =
      (⟨[], 2⟩, 1, "Cleaned up 1 old print job(s) from database") := by
  exact ⟨rfl, rfl, rfl, rfl, rfl⟩

end IotPrinter
